import Mathlib

/-!
# RFClassificationEngine: sample extraction and classifier lifecycle

A shallow embedding of `Logic/Preprocessing/RandomForest/RFClassificationEngine.cxx`.

The engine holds a pointer to a data source, a pointer to the training sample and a
classifier object.  `SetDataSource`, `ResetClassifier` and `TrainClassifier` are embedded
as functions on the engine state.  The collaborators whose code is not part of the
embedded sources (the ITK region iterators, the collection iterator, the sample type,
the classifier object and the learner) are either modelled from the specification, under
a doc comment that says so, or taken as parameters.

Integer conventions: `unsigned long nSamples` counts the voxels of a buffer that lives in
a 64-bit address space, so it never wraps and is a `Nat`; `int iSample` is a 32-bit signed
counter that is incremented once per labelled voxel and is wrapped explicitly; `int nComp`
receives the value of `GetTotalComponents()` unchanged.  Pixel values are only copied and
compared with zero, so `LabelType` and `GreyType` carry no range.
-/

/-! ## Pixel types and image geometry -/

/-- Label pixel type `LabelType` (an unsigned integer type; 0 means unlabelled). -/
abbrev LabelType := Nat

/-- Intensity pixel type `GreyType` (a signed integer type). -/
abbrev GreyType := Int

/-- An `itk::Index<3>`: the integer coordinates of a voxel. -/
structure Index3 where
  x : Int
  y : Int
  z : Int
deriving DecidableEq, Repr

/-- An `itk::ImageRegion<3>`: start index and size along each axis. -/
structure ImageRegion where
  index : Index3
  sx : Nat
  sy : Nat
  sz : Nat
deriving DecidableEq, Repr

namespace ImageRegion

/-- Modelled from the spec: the order in which a region iterator
(`itk::ImageRegionConstIterator`, not among the sources embedded here) visits the voxels of a
region: raster order, the first axis running fastest. -/
def indices (r : ImageRegion) : List Index3 :=
  (List.range r.sz).flatMap fun (k : Nat) =>
    (List.range r.sy).flatMap fun (j : Nat) =>
      (List.range r.sx).map fun (i : Nat) =>
        { x := r.index.x + (i : Int), y := r.index.y + (j : Int), z := r.index.z + (k : Int) }

/-- Whether a voxel index lies inside the region (`ImageRegion::IsInside`). -/
def IsInside (r : ImageRegion) (p : Index3) : Bool :=
  decide (r.index.x ≤ p.x ∧ p.x < r.index.x + (r.sx : Int)) &&
  decide (r.index.y ≤ p.y ∧ p.y < r.index.y + (r.sy : Int)) &&
  decide (r.index.z ≤ p.z ∧ p.z < r.index.z + (r.sz : Int))

end ImageRegion

/-- The segmentation image `LabelImageWrapper::ImageType`: its buffered region and the
label stored at each voxel index (values outside the buffered region are never read). -/
structure LabelImage where
  region : ImageRegion
  pixel : Index3 → LabelType

/-- The image behind an anatomical layer, as returned by `GetLayer()->GetImageBase()`:
either a scalar image (`AnatomicScalarImageWrapper::ImageType`, one channel) or a vector
image (`AnatomicImageWrapper::ImageType`, `nComp` channels per voxel). -/
inductive AnatomicImageBase where
  | scalar (region : ImageRegion) (pixel : Index3 → GreyType)
  | vector (region : ImageRegion) (nComp : Nat) (pixel : Index3 → Nat → GreyType)

namespace AnatomicImageBase

/-- Buffered region of the layer image. -/
def region : AnatomicImageBase → ImageRegion
  | scalar r _ => r
  | vector r _ _ => r

/-- Number of channels of the layer: 1 for a scalar image, `nComp` for a vector image. -/
def components : AnatomicImageBase → Nat
  | scalar _ _ => 1
  | vector _ n _ => n

/-- Channel `c` of the voxel stored at index `p`. -/
def component : AnatomicImageBase → Index3 → Nat → GreyType
  | scalar _ f, p, _ => f p
  | vector _ _ f, p, c => f p c

/-- All channels of the voxel at index `p`, in channel order. -/
def componentsAt (img : AnatomicImageBase) (p : Index3) : List GreyType :=
  (List.range img.components).map (img.component p)

/-- Reading channel `c` at index `p` through an iterator: defined only when `p` lies in
the buffered region of the layer (otherwise the read is outside the pixel buffer). -/
def read (img : AnatomicImageBase) (p : Index3) (c : Nat) : Option GreyType :=
  if img.region.IsInside p then some (img.component p c) else none

end AnatomicImageBase

/-! ## The collection iterator -/

/-- Modelled from the spec: `ImageCollectionConstRegionIteratorWithIndex` (declared in
`ImageCollectionToImageFilter.h`, not among the sources embedded here).  The iterator is built
over one region, images are added to it in order, and it walks the region in the same order
as a region iterator.  `pos` holds the voxel indices still to visit, the current one
first. -/
structure CollectionIter where
  region : ImageRegion
  images : List AnatomicImageBase
  pos : List Index3

namespace CollectionIter

/-- The constructor `CollectionIter cit(region)`: no images, positioned at the first voxel. -/
def new (region : ImageRegion) : CollectionIter :=
  { region := region, images := [], pos := region.indices }

/-- The call `cit.AddImage(image)`: the image becomes the last contributing layer. -/
def AddImage (cit : CollectionIter) (img : AnatomicImageBase) : CollectionIter :=
  { cit with images := cit.images ++ [img] }

/-- The call `cit.GetTotalComponents()`: the sum of the channel counts of the added images. -/
def GetTotalComponents (cit : CollectionIter) : Nat :=
  (cit.images.map AnatomicImageBase.components).sum

/-- Channel `i` of the concatenation, in layer order and channel-within-layer order, of the
values the images hold at index `p`. -/
def valueAt (p : Index3) : List AnatomicImageBase → Nat → Option GreyType
  | [], _ => none
  | img :: rest, i =>
    if i < img.components then img.read p i else valueAt p rest (i - img.components)

/-- The call `cit.Value(i)` at the current position. -/
def Value (cit : CollectionIter) (i : Nat) : Option GreyType :=
  match cit.pos with
  | [] => none
  | p :: _ => valueAt p cit.images i

/-- The increment `++cit`. -/
def next (cit : CollectionIter) : CollectionIter :=
  { cit with pos := cit.pos.tail }

end CollectionIter

/-! ## The training sample -/

/-- The training sample `SampleType`: `data` holds one feature vector per row, `label` one
label per row. -/
structure SampleType where
  data : List (List GreyType)
  label : List LabelType
deriving DecidableEq, Repr

/-- Modelled from the spec: the constructor `SampleType(nSamples, nComp)` (declared in
`Library/data.h`, not among the sources embedded here) pre-sizes the sample to `nSamples` rows
of `nComp` values each, value-initialised. -/
def SampleType.new (nSamples nComp : Nat) : SampleType :=
  { data := List.replicate nSamples (List.replicate nComp 0),
    label := List.replicate nSamples 0 }

/-! ## The data source -/

/-- The part of `SNAPImageData` that `TrainClassifier` reads: `IsMainLoaded()`, the image of
`GetSegmentation()`, and the images of the layers that `GetLayers(MAIN_ROLE | OVERLAY_ROLE)`
enumerates, in enumeration order. -/
structure SNAPImageData where
  IsMainLoaded : Bool
  segmentation : LabelImage
  layers : List AnatomicImageBase

/-! ## Extraction (lines 58 to 107 of `TrainClassifier`) -/

/-- Two's complement wrap of a value into the range of a 32-bit `int`. -/
def wrapInt32 (v : Int) : Int :=
  (v + 2147483648) % 4294967296 - 2147483648

/-- First pass: `nSamples` is incremented once for every voxel of the buffered region of
the label image whose label is nonzero. -/
def countSamples (imgSeg : LabelImage) : Nat :=
  imgSeg.region.indices.foldl
    (fun nSamples p => if imgSeg.pixel p ≠ 0 then nSamples + 1 else nSamples) 0

/-- State of the second pass: the running row index `iSample`, the sample being filled, and
whether an access outside an allocated vector or pixel buffer has happened. -/
structure FillState where
  iSample : Int
  sample : SampleType
  fault : Bool
deriving DecidableEq, Repr

/-- The inner loop `for(int i = 0; i < nComp; i++) column[i] = cit.Value(i)`, started at
`i` with `remaining = nComp - i` iterations to go.  `none` records an access outside the
column or outside a pixel buffer. -/
def fillColumn (cit : CollectionIter) : Nat → Nat → List GreyType → Option (List GreyType)
  | _, 0, column => some column
  | i, remaining + 1, column =>
    match cit.Value i with
    | none => none
    | some v =>
      if i < column.length then fillColumn cit (i + 1) remaining (column.set i v) else none

/-- Body of the second loop for one voxel with label `label`: when the label is nonzero,
row `iSample` of the sample receives the channel values and the label, and `iSample` is
incremented. -/
def fillVoxel (nComp : Nat) (cit : CollectionIter) (label : LabelType) (st : FillState) :
    FillState :=
  if st.fault then st
  else if label ≠ 0 then
    if 0 ≤ st.iSample then
      match st.sample.data[st.iSample.toNat]? with
      | none => { st with fault := true }
      | some column =>
        match fillColumn cit 0 nComp column with
        | none => { st with fault := true }
        | some filled =>
          if st.iSample.toNat < st.sample.label.length then
            { iSample := wrapInt32 (st.iSample + 1),
              sample := { data := st.sample.data.set st.iSample.toNat filled,
                          label := st.sample.label.set st.iSample.toNat label },
              fault := false }
          else { st with fault := true }
    else { st with fault := true }
  else st

/-- The second loop `for(LabelIter lit(...); !lit.IsAtEnd(); ++lit, ++cit)`: the first
argument is the list of voxel indices `lit` still has to visit. -/
def fillLoop (imgSeg : LabelImage) (nComp : Nat) :
    List Index3 → CollectionIter → FillState → FillState
  | [], _, st => st
  | p :: rest, cit, st =>
    fillLoop imgSeg nComp rest cit.next (fillVoxel nComp cit (imgSeg.pixel p) st)

/-- The collection iterator after the loop that adds every layer image to it. -/
def collectionIter (d : SNAPImageData) : CollectionIter :=
  d.layers.foldl CollectionIter.AddImage (CollectionIter.new d.segmentation.region)

/-- Extraction as performed by `TrainClassifier`: count the labelled voxels, build the
collection iterator over the buffered region of the label image, allocate the sample and
fill it. -/
def extractSample (d : SNAPImageData) : FillState :=
  let imgSeg := d.segmentation
  let nSamples := countSamples imgSeg
  let cit := collectionIter d
  let nComp := cit.GetTotalComponents
  fillLoop imgSeg nComp imgSeg.region.indices cit
    { iSample := 0, sample := SampleType.new nSamples nComp, fault := false }

/-! ## The classifier object and the learner -/

/-- A decimal literal of the source, standing for `mantissa * 10 ^ (-decimals)`: the
literal `0.1` is `⟨1, 1⟩` and `0.05` is `⟨5, 2⟩`. -/
structure DecimalLiteral where
  mantissa : Nat
  decimals : Nat
deriving DecidableEq, Repr

/-- The fields of `TrainingParameters` that `TrainClassifier` assigns. -/
structure TrainingParameters where
  treeDepth : Nat
  treeNum : Nat
  candidateNodeClassifierNum : Nat
  candidateClassifierThresholdNum : Nat
  subSamplePercent : Nat
  splitIG : DecimalLiteral
  leafEntropy : DecimalLiteral
  verbose : Bool
deriving DecidableEq, Repr

/-- The classifier object `RandomForestClassifier`, reduced to the three members that
`TrainClassifier` hands to the learner.  `Tree` is the type of the decision trees of the
forest, which belongs to the random forest library. -/
structure RandomForestClassifier (Tree : Type) where
  m_Forest : List Tree
  m_ValidLabel : List LabelType
  m_Mapping : List Nat
deriving DecidableEq, Repr

namespace RandomForestClassifier

/-- Modelled from the spec: `RandomForestClassifier::New()` (declared in
`RandomForestClassifier.h`, not among the sources embedded here) creates the ensemble empty:
no tree, no valid label, no class mapping. -/
def New {Tree : Type} : RandomForestClassifier Tree :=
  { m_Forest := [], m_ValidLabel := [], m_Mapping := [] }

/-- Modelled from the spec: `RandomForestClassifier::Reset()` (declared in
`RandomForestClassifier.h`, not among the sources embedded here) discards the ensemble
unconditionally, leaving the classifier as it was when created. -/
def Reset {Tree : Type} (_c : RandomForestClassifier Tree) : RandomForestClassifier Tree :=
  New

/-- Modelled from the spec: the query a consumer makes to learn whether an ensemble is
installed; an empty forest reports no ensemble. -/
def hasEnsemble {Tree : Type} (c : RandomForestClassifier Tree) : Bool :=
  !c.m_Forest.isEmpty

end RandomForestClassifier

/-- What a call of `Classification::Learning` leaves behind: the contents of the forest,
valid-label and mapping objects it received by reference, and whether the call ended by
throwing instead of returning. -/
structure LearningResult (Tree : Type) where
  classifier : RandomForestClassifier Tree
  threw : Bool

/-- The learner `Classification::Learning` (random forest library, not among the
sources), taken as a parameter: it receives the parameters, the sample, and the classifier
members by reference. -/
abbrev Learner (Tree : Type) :=
  TrainingParameters → SampleType → RandomForestClassifier Tree → LearningResult Tree

/-! ## The engine -/

/-- The engine: `m_DataSource` is a pointer (`none` is `NULL`, `some a` the address `a`),
`m_Sample` an owned pointer to the current sample, `m_Classifier` the classifier object. -/
structure RFClassificationEngine (Tree : Type) where
  m_DataSource : Option Nat
  m_Sample : Option SampleType
  m_Classifier : RandomForestClassifier Tree
deriving DecidableEq, Repr

/-- The objects data source pointers point to. -/
abbrev Memory := Nat → SNAPImageData

/-- How a call of `TrainClassifier` ends: normally; at the failed precondition assertion;
at an access outside an allocated vector or pixel buffer during extraction; or by the
learner throwing. -/
inductive TrainStatus where
  | completed
  | assertionFailed
  | accessFault
  | learnerThrew
deriving DecidableEq, Repr

/-- The engine after a call of `TrainClassifier` and the way the call ended. -/
structure TrainOutcome (Tree : Type) where
  engine : RFClassificationEngine Tree
  status : TrainStatus

/-- The parameter set assigned in `TrainClassifier`. -/
def trainingParameters : TrainingParameters :=
  { treeDepth := 10,
    treeNum := 10,
    candidateNodeClassifierNum := 10,
    candidateClassifierThresholdNum := 10,
    subSamplePercent := 0,
    splitIG := ⟨1, 1⟩,
    leafEntropy := ⟨5, 2⟩,
    verbose := true }

namespace RFClassificationEngine

variable {Tree : Type}

/-- The constructor: no data source, no sample, a new classifier. -/
def new : RFClassificationEngine Tree :=
  { m_DataSource := none, m_Sample := none, m_Classifier := RandomForestClassifier.New }

/-- The method `SetDataSource(imageData)`: when the pointer differs from the stored one it
is stored and the classifier is reset; otherwise nothing happens. -/
def SetDataSource (e : RFClassificationEngine Tree) (imageData : Option Nat) :
    RFClassificationEngine Tree :=
  if e.m_DataSource ≠ imageData then
    { e with m_DataSource := imageData, m_Classifier := e.m_Classifier.Reset }
  else e

/-- The method `ResetClassifier()`. -/
def ResetClassifier (e : RFClassificationEngine Tree) : RFClassificationEngine Tree :=
  { e with m_Classifier := e.m_Classifier.Reset }

/-- The condition of the assertion that opens `TrainClassifier`:
`m_DataSource && m_DataSource->IsMainLoaded()`. -/
def precondition (mem : Memory) (e : RFClassificationEngine Tree) : Bool :=
  match e.m_DataSource with
  | none => false
  | some a => (mem a).IsMainLoaded

/-- The arguments `TrainClassifier` hands to `Learning`, when the call gets that far: the
fixed parameters, the newly extracted sample and the reset classifier. -/
def learningArguments (mem : Memory) (e : RFClassificationEngine Tree) :
    Option (TrainingParameters × SampleType × RandomForestClassifier Tree) :=
  match e.m_DataSource with
  | none => none
  | some a =>
    if (mem a).IsMainLoaded then
      let st := extractSample (mem a)
      if st.fault then none
      else some (trainingParameters, st.sample, e.m_Classifier.Reset)
    else none

/-- The method `TrainClassifier()`, built with assertions enabled.  The assertion comes
first; then the old sample is deleted and a new one extracted; then the classifier is reset
and handed to the learner together with the parameters and the sample. -/
def TrainClassifier (Learning : Learner Tree) (mem : Memory) (e : RFClassificationEngine Tree) :
    TrainOutcome Tree :=
  match e.m_DataSource with
  | none => { engine := e, status := .assertionFailed }
  | some a =>
    if (mem a).IsMainLoaded then
      let st := extractSample (mem a)
      if st.fault then
        { engine := { e with m_Sample := some st.sample }, status := .accessFault }
      else
        let r := Learning trainingParameters st.sample e.m_Classifier.Reset
        { engine := { e with m_Sample := some st.sample, m_Classifier := r.classifier },
          status := if r.threw then .learnerThrew else .completed }
    else { engine := e, status := .assertionFailed }

end RFClassificationEngine

/-! ## The state machine of the specification -/

/-- The three states the specification gives the engine. -/
inductive EngineState where
  | Uninitialized
  | DataBound
  | Trained
deriving DecidableEq, Repr

/-- The state of the specification read off the engine: `Uninitialized` while no data
source is bound; with a bound source, `Trained` when an ensemble is installed and
`DataBound` when the classifier is in its reset state. -/
def engineState {Tree : Type} (e : RFClassificationEngine Tree) : EngineState :=
  match e.m_DataSource with
  | none => .Uninitialized
  | some _ => if e.m_Classifier.hasEnsemble then .Trained else .DataBound

/-- The error taxonomy of the specification. -/
inductive SpecError where
  | NoDataSourceBound
  | MainImageNotLoaded
  | GeometryMismatch
  | EmptyTrainingSet
  | DegenerateLabelSet
deriving DecidableEq, Repr

/-! ## Reference notions used to state the extraction properties -/

/-- The voxels of the label volume whose label is nonzero, in traversal order. -/
def labelledVoxels (imgSeg : LabelImage) : List Index3 :=
  imgSeg.region.indices.filter (fun p => decide (imgSeg.pixel p ≠ 0))

/-- The values the layers hold at voxel `p`, concatenated in layer-list order and
channel-within-layer order. -/
def featureVector (layers : List AnatomicImageBase) (p : Index3) : List GreyType :=
  layers.flatMap (fun img => img.componentsAt p)

/-- The sum of the channel counts of the layers. -/
def totalChannels (layers : List AnatomicImageBase) : Nat :=
  (layers.map AnatomicImageBase.components).sum

/-- The shape of a sample: `n` rows of data and of labels, every row `c` values wide. -/
def SampleType.hasShape (s : SampleType) (n c : Nat) : Prop :=
  s.data.length = n ∧ s.label.length = n ∧ ∀ row ∈ s.data, row.length = c

/-! ## Write targets of the fill pass -/

/-- The value a decimal literal denotes, as a rational number. -/
def DecimalLiteral.value (l : DecimalLiteral) : ℚ :=
  (l.mantissa : ℚ) / (10 : ℚ) ^ l.decimals

/-- The 4 x 4 x 1 label volume of the scenario of the specification: label 1 in one
corner block, label 2 in the opposite one, 0 elsewhere. -/
def scenarioLabels : LabelImage :=
  { region := ⟨⟨0, 0, 0⟩, 4, 4, 1⟩,
    pixel := fun p => if p.x < 2 ∧ p.y < 2 then 1 else if 2 ≤ p.x ∧ 2 ≤ p.y then 2 else 0 }

/-- A scalar layer over the same region: intensity 10 under label 1, 200 elsewhere. -/
def scenarioLayer : AnatomicImageBase :=
  .scalar ⟨⟨0, 0, 0⟩, 4, 4, 1⟩ (fun p => if p.x < 2 ∧ p.y < 2 then 10 else 200)

/-- A two-channel vector layer over the same region. -/
def scenarioVectorLayer : AnatomicImageBase :=
  .vector ⟨⟨0, 0, 0⟩, 4, 4, 1⟩ 2 (fun p c => p.x + 10 * p.y + 100 * (c : Int))

/-- A data source with the main image loaded, the scenario labels and two layers. -/
def scenarioData : SNAPImageData :=
  { IsMainLoaded := true, segmentation := scenarioLabels,
    layers := [scenarioLayer, scenarioVectorLayer] }

/-- A data source whose main image is not loaded. -/
def unloadedData : SNAPImageData :=
  { IsMainLoaded := false, segmentation := scenarioLabels, layers := [] }

/-- A data source whose label volume (2 x 1 x 1) has no nonzero voxel. -/
def unlabelledData : SNAPImageData :=
  { IsMainLoaded := true,
    segmentation := { region := ⟨⟨0, 0, 0⟩, 2, 1, 1⟩, pixel := fun _ => 0 },
    layers := [.scalar ⟨⟨0, 0, 0⟩, 2, 1, 1⟩ (fun _ => 5)] }

/-- A data source whose only layer has a buffered region (2 x 1 x 1) different from that
of the label volume (1 x 1 x 1, one voxel labelled 1). -/
def mismatchedData : SNAPImageData :=
  { IsMainLoaded := true,
    segmentation := { region := ⟨⟨0, 0, 0⟩, 1, 1, 1⟩, pixel := fun _ => 1 },
    layers := [.scalar ⟨⟨0, 0, 0⟩, 2, 1, 1⟩ (fun p => 5 + p.x)] }

/-- A data source whose label volume has 2^31 + 1 voxels, all labelled 1, with one scalar
layer over the same region. -/
def overflowData : SNAPImageData :=
  { IsMainLoaded := true,
    segmentation := { region := ⟨⟨0, 0, 0⟩, 2147483649, 1, 1⟩, pixel := fun _ => 1 },
    layers := [.scalar ⟨⟨0, 0, 0⟩, 2147483649, 1, 1⟩ (fun _ => 0)] }

/-- A stand-in learner that returns normally with `treeNum` trees. -/
def stubLearner : Learner Nat :=
  fun params sample c =>
    { classifier := { c with m_Forest := List.replicate params.treeNum sample.data.length },
      threw := false }

/-- A stand-in learner that throws at once, leaving the classifier as it received it. -/
def throwingLearner : Learner Nat :=
  fun _ _ c => { classifier := c, threw := true }

/-- An engine bound to address 1 that holds a sample and a trained ensemble. -/
def trainedEngine : RFClassificationEngine Nat :=
  { m_DataSource := some 1, m_Sample := some { data := [[3]], label := [1] },
    m_Classifier := { m_Forest := [7, 8], m_ValidLabel := [1], m_Mapping := [0] } }

/-- An engine as the constructor leaves it: no data source bound. -/
def unboundEngine : RFClassificationEngine Nat :=
  RFClassificationEngine.new

/-- An engine bound to address 1 that has not been trained. -/
def boundEngine : RFClassificationEngine Nat :=
  { m_DataSource := some 1, m_Sample := none, m_Classifier := RandomForestClassifier.New }

/-! ## Shape of the sample -/

theorem collectionIter_images_aux (layers : List AnatomicImageBase) (cit : CollectionIter) :
    (layers.foldl CollectionIter.AddImage cit).images = cit.images ++ layers ∧
    (layers.foldl CollectionIter.AddImage cit).pos = cit.pos ∧
    (layers.foldl CollectionIter.AddImage cit).region = cit.region := by
  induction layers generalizing cit with
  | nil => simp
  | cons img rest ih =>
    simp only [List.foldl_cons]
    obtain ⟨h1, h2, h3⟩ := ih (cit.AddImage img)
    refine ⟨?_, ?_, ?_⟩
    · rw [h1]; simp [CollectionIter.AddImage]
    · rw [h2]; rfl
    · rw [h3]; rfl

theorem collectionIter_images (d : SNAPImageData) : (collectionIter d).images = d.layers := by
  have h := (collectionIter_images_aux d.layers (CollectionIter.new d.segmentation.region)).1
  simpa [collectionIter, CollectionIter.new] using h

theorem collectionIter_pos (d : SNAPImageData) :
    (collectionIter d).pos = d.segmentation.region.indices := by
  have h := (collectionIter_images_aux d.layers (CollectionIter.new d.segmentation.region)).2.1
  simpa [collectionIter, CollectionIter.new] using h

theorem collectionIter_total (d : SNAPImageData) :
    (collectionIter d).GetTotalComponents = totalChannels d.layers := by
  simp [CollectionIter.GetTotalComponents, totalChannels, collectionIter_images]

theorem countSamples_aux (f : Index3 → LabelType) (ps : List Index3) (n : Nat) :
    ps.foldl (fun nSamples p => if f p ≠ 0 then nSamples + 1 else nSamples) n =
      n + (ps.filter (fun p => decide (f p ≠ 0))).length := by
  induction ps generalizing n with
  | nil => simp
  | cons p rest ih =>
    rw [List.foldl_cons, ih, List.filter_cons]
    by_cases h : f p = 0
    · simp [h]
    · simp [h]; omega

theorem countSamples_eq (imgSeg : LabelImage) :
    countSamples imgSeg = (labelledVoxels imgSeg).length := by
  unfold countSamples labelledVoxels
  rw [countSamples_aux]
  simp

theorem fillColumn_length (cit : CollectionIter) :
    ∀ (n i : Nat) (column filled : List GreyType),
      fillColumn cit i n column = some filled → filled.length = column.length := by
  intro n
  induction n with
  | zero =>
    intro i column filled h
    simp [fillColumn] at h
    rw [← h]
  | succ n ih =>
    intro i column filled h
    simp only [fillColumn] at h
    cases hv : cit.Value i with
    | none => simp [hv] at h
    | some v =>
      simp only [hv] at h
      by_cases hi : i < column.length
      · simp only [hi, if_true] at h
        have := ih (i + 1) (column.set i v) filled h
        simpa using this
      · simp [hi] at h

theorem SampleType.new_hasShape (n c : Nat) : (SampleType.new n c).hasShape n c := by
  refine ⟨by simp [SampleType.new], by simp [SampleType.new], ?_⟩
  intro row hrow
  simp only [SampleType.new] at hrow
  rw [List.eq_of_mem_replicate hrow]
  simp

theorem fillVoxel_hasShape (nComp : Nat) (cit : CollectionIter) (label : LabelType)
    (st : FillState) (n : Nat) (h : st.sample.hasShape n nComp) :
    (fillVoxel nComp cit label st).sample.hasShape n nComp := by
  unfold fillVoxel
  split
  · exact h
  · split
    · split
      · split
        · exact h
        · rename_i column hcol
          split
          · exact h
          · rename_i filled hfill
            split
            · obtain ⟨h1, h2, h3⟩ := h
              refine ⟨by simpa using h1, by simpa using h2, ?_⟩
              intro row hrow
              simp only at hrow
              rcases List.mem_or_eq_of_mem_set hrow with hmem | heq
              · exact h3 row hmem
              · rw [heq, fillColumn_length cit nComp 0 column filled hfill]
                exact h3 column (List.getElem?_mem hcol)
            · exact h
      · exact h
    · exact h

theorem fillLoop_hasShape (imgSeg : LabelImage) (nComp n : Nat) :
    ∀ (ps : List Index3) (cit : CollectionIter) (st : FillState),
      st.sample.hasShape n nComp → (fillLoop imgSeg nComp ps cit st).sample.hasShape n nComp := by
  intro ps
  induction ps with
  | nil => intro cit st h; simpa [fillLoop] using h
  | cons p rest ih =>
    intro cit st h
    simp only [fillLoop]
    exact ih cit.next _ (fillVoxel_hasShape nComp cit _ st n h)

theorem extractSample_hasShape (d : SNAPImageData) :
    (extractSample d).sample.hasShape (labelledVoxels d.segmentation).length
      (totalChannels d.layers) := by
  simp only [extractSample]
  rw [collectionIter_total, countSamples_eq]
  exact fillLoop_hasShape _ _ _ _ _ _ (SampleType.new_hasShape _ _)

/-! ## Contents of the sample -/

theorem featureVector_cons (img : AnatomicImageBase) (rest : List AnatomicImageBase)
    (p : Index3) :
    featureVector (img :: rest) p = img.componentsAt p ++ featureVector rest p := by
  simp [featureVector]

theorem componentsAt_length (img : AnatomicImageBase) (p : Index3) :
    (img.componentsAt p).length = img.components := by
  simp [AnatomicImageBase.componentsAt]

theorem featureVector_length (layers : List AnatomicImageBase) (p : Index3) :
    (featureVector layers p).length = totalChannels layers := by
  induction layers with
  | nil => simp [featureVector, totalChannels]
  | cons img rest ih =>
    rw [featureVector_cons, List.length_append, ih, componentsAt_length]
    simp [totalChannels]

theorem valueAt_eq (p : Index3) :
    ∀ (images : List AnatomicImageBase) (i : Nat),
      (∀ img ∈ images, img.region.IsInside p = true) →
      CollectionIter.valueAt p images i = (featureVector images p)[i]? := by
  intro images
  induction images with
  | nil => intro i _; simp [CollectionIter.valueAt, featureVector]
  | cons img rest ih =>
    intro i hin
    have himg : img.region.IsInside p = true := hin img (List.mem_cons_self _ _)
    have hrest : ∀ im ∈ rest, im.region.IsInside p = true :=
      fun im him => hin im (List.mem_cons_of_mem _ him)
    rw [featureVector_cons]
    simp only [CollectionIter.valueAt]
    by_cases hi : i < img.components
    · rw [if_pos hi, List.getElem?_append_left (by rw [componentsAt_length]; exact hi)]
      simp [AnatomicImageBase.read, himg, AnatomicImageBase.componentsAt, hi]
    · rw [if_neg hi, List.getElem?_append_right (by rw [componentsAt_length]; omega),
        componentsAt_length]
      exact ih _ hrest

theorem fillColumn_spec (cit : CollectionIter) (vec : List GreyType)
    (hval : ∀ i, cit.Value i = vec[i]?) :
    ∀ (n i : Nat) (a b : List GreyType), a.length = i → b.length = n → vec.length = i + n →
      fillColumn cit i n (a ++ b) = some (a ++ vec.drop i) := by
  intro n
  induction n with
  | zero =>
    intro i a b ha hb hv
    have hb0 : b = [] := List.length_eq_zero.mp hb
    have hd : vec.drop i = [] := List.drop_eq_nil_of_le (by omega)
    simp [fillColumn, hb0, hd]
  | succ n ih =>
    intro i a b ha hb hv
    cases b with
    | nil => simp at hb
    | cons x t =>
      have hi : i < vec.length := by omega
      have hvi : cit.Value i = some vec[i] := by
        rw [hval i]; exact List.getElem?_eq_getElem hi
      simp only [fillColumn, hvi]
      have hlen : i < (a ++ x :: t).length := by simp; omega
      rw [if_pos hlen]
      have hset : (a ++ x :: t).set i vec[i] = (a ++ [vec[i]]) ++ t := by
        rw [List.set_append_right _ _ (by omega)]
        simp [ha]
      rw [hset, ih (i + 1) (a ++ [vec[i]]) t (by simp [ha]) (by simpa using hb) (by omega)]
      rw [List.drop_eq_getElem_cons hi]
      simp

theorem fillVoxel_unlabelled (nComp : Nat) (cit : CollectionIter) (st : FillState) :
    fillVoxel nComp cit 0 st = st := by
  unfold fillVoxel
  split <;> simp

theorem fillVoxel_labelled (nComp : Nat) (cit : CollectionIter) (label : LabelType)
    (vec row : List GreyType) (doneD pendD : List (List GreyType))
    (doneL pendL : List LabelType) (l0 : LabelType)
    (hlabel : label ≠ 0) (hval : ∀ i, cit.Value i = vec[i]?)
    (hvec : vec.length = nComp) (hrow : row.length = nComp)
    (hdone : doneD.length = doneL.length) :
    fillVoxel nComp cit label
        { iSample := (doneL.length : Int),
          sample := { data := doneD ++ row :: pendD, label := doneL ++ l0 :: pendL },
          fault := false } =
      { iSample := wrapInt32 ((doneL.length : Int) + 1),
        sample := { data := doneD ++ vec :: pendD, label := doneL ++ label :: pendL },
        fault := false } := by
  have hcol : (doneD ++ row :: pendD)[doneL.length]? = some row := by
    rw [List.getElem?_append_right (by omega)]
    simp [hdone]
  have hfill : fillColumn cit 0 nComp row = some vec := by
    have := fillColumn_spec cit vec hval nComp 0 [] row rfl hrow (by omega)
    simpa using this
  unfold fillVoxel
  simp only [Bool.false_eq_true, if_false, hlabel, ne_eq, not_false_eq_true, if_true,
    Int.toNat_ofNat, Int.ofNat_zero_le, hcol, hfill]
  have hl : doneL.length < (doneL ++ l0 :: pendL).length := by simp
  rw [if_pos hl]
  have h1 : (doneD ++ row :: pendD).set doneL.length vec = doneD ++ vec :: pendD := by
    rw [List.set_append_right _ _ (by omega)]
    simp [hdone]
  have h2 : (doneL ++ l0 :: pendL).set doneL.length label = doneL ++ label :: pendL := by
    rw [List.set_append_right _ _ (by omega)]
    simp
  rw [h1, h2]

theorem wrapInt32_small (v : Int) (h0 : -2147483648 ≤ v) (h1 : v < 2147483648) :
    wrapInt32 v = v := by
  unfold wrapInt32
  omega

theorem fillLoop_spec (imgSeg : LabelImage) (images : List AnatomicImageBase) :
    ∀ (ps tl : List Index3) (cit : CollectionIter)
      (doneD pendD : List (List GreyType)) (doneL pendL : List LabelType),
      cit.images = images → cit.pos = ps ++ tl →
      (∀ p ∈ ps, imgSeg.pixel p ≠ 0 → ∀ img ∈ images, img.region.IsInside p = true) →
      doneD.length = doneL.length →
      (ps.filter (fun p => decide (imgSeg.pixel p ≠ 0))).length ≤ pendD.length →
      (ps.filter (fun p => decide (imgSeg.pixel p ≠ 0))).length ≤ pendL.length →
      (∀ row ∈ pendD, row.length = totalChannels images) →
      doneL.length + (ps.filter (fun p => decide (imgSeg.pixel p ≠ 0))).length < 2147483648 →
      fillLoop imgSeg (totalChannels images) ps cit
          { iSample := (doneL.length : Int),
            sample := { data := doneD ++ pendD, label := doneL ++ pendL },
            fault := false } =
        { iSample :=
            ((doneL.length + (ps.filter (fun p => decide (imgSeg.pixel p ≠ 0))).length : Nat) : Int),
          sample :=
            { data := doneD ++
                (ps.filter (fun p => decide (imgSeg.pixel p ≠ 0))).map (featureVector images) ++
                pendD.drop (ps.filter (fun p => decide (imgSeg.pixel p ≠ 0))).length,
              label := doneL ++
                (ps.filter (fun p => decide (imgSeg.pixel p ≠ 0))).map imgSeg.pixel ++
                pendL.drop (ps.filter (fun p => decide (imgSeg.pixel p ≠ 0))).length },
          fault := false } := by
  intro ps
  induction ps with
  | nil =>
    intro tl cit doneD pendD doneL pendL _ _ _ _ _ _ _ _
    simp [fillLoop]
  | cons p rest ih =>
    intro tl cit doneD pendD doneL pendL himg hpos hin hdone hpD hpL hrows hbound
    have hnextI : cit.next.images = images := by simpa [CollectionIter.next] using himg
    have hnextP : cit.next.pos = rest ++ tl := by simp [CollectionIter.next, hpos]
    have hinR : ∀ q ∈ rest, imgSeg.pixel q ≠ 0 →
        ∀ img ∈ images, img.region.IsInside q = true :=
      fun q hq => hin q (List.mem_cons_of_mem _ hq)
    simp only [fillLoop]
    by_cases hl : imgSeg.pixel p = 0
    · have hf : (p :: rest).filter (fun p => decide (imgSeg.pixel p ≠ 0)) =
          rest.filter (fun p => decide (imgSeg.pixel p ≠ 0)) := by
        simp [List.filter_cons, hl]
      rw [hf] at hpD hpL hbound ⊢
      rw [hl, fillVoxel_unlabelled]
      exact ih tl cit.next doneD pendD doneL pendL hnextI hnextP hinR hdone hpD hpL hrows hbound
    · have hf : (p :: rest).filter (fun p => decide (imgSeg.pixel p ≠ 0)) =
          p :: rest.filter (fun p => decide (imgSeg.pixel p ≠ 0)) := by
        simp [List.filter_cons, hl]
      rw [hf] at hpD hpL hbound ⊢
      simp only [List.length_cons] at hpD hpL hbound
      cases pendD with
      | nil => simp at hpD
      | cons row pendD =>
        cases pendL with
        | nil => simp at hpL
        | cons l0 pendL =>
          have hval : ∀ i, cit.Value i = (featureVector images p)[i]? := by
            intro i
            simp only [CollectionIter.Value, hpos, himg, List.cons_append]
            exact valueAt_eq p images i (hin p (List.mem_cons_self _ _) hl)
          have hrow : row.length = totalChannels images := hrows row (List.mem_cons_self _ _)
          rw [fillVoxel_labelled (totalChannels images) cit (imgSeg.pixel p)
            (featureVector images p) row doneD pendD doneL pendL l0 hl hval
            (featureVector_length images p) hrow hdone]
          rw [wrapInt32_small _ (by omega) (by omega)]
          have hrows2 : ∀ r ∈ pendD, r.length = totalChannels images :=
            fun r hr => hrows r (List.mem_cons_of_mem _ hr)
          have key := ih tl cit.next (doneD ++ [featureVector images p]) pendD
            (doneL ++ [imgSeg.pixel p]) pendL hnextI hnextP hinR (by simp [hdone])
            (by simpa using hpD) (by simpa using hpL) hrows2
            (by simp only [List.length_append, List.length_singleton]; omega)
          simp only [List.length_append, List.length_singleton, List.append_assoc,
            List.singleton_append, Nat.cast_add, Nat.cast_one] at key
          rw [key]
          simp only [List.length_cons, List.map_cons, List.drop_succ_cons, List.append_assoc,
            List.cons_append, Nat.cast_add, Nat.cast_one]
          congr 1
          omega

theorem indices_isInside (r : ImageRegion) (p : Index3) (hp : p ∈ r.indices) :
    r.IsInside p = true := by
  simp only [ImageRegion.indices, List.mem_flatMap, List.mem_map, List.mem_range] at hp
  obtain ⟨k, hk, j, hj, i, hi, rfl⟩ := hp
  simp only [ImageRegion.IsInside, Bool.and_eq_true, decide_eq_true_eq]
  omega

theorem mem_labelledVoxels (imgSeg : LabelImage) (p : Index3) :
    p ∈ labelledVoxels imgSeg ↔ p ∈ imgSeg.region.indices ∧ imgSeg.pixel p ≠ 0 := by
  simp [labelledVoxels]

theorem extractSample_spec (d : SNAPImageData)
    (hin : ∀ p ∈ labelledVoxels d.segmentation, ∀ img ∈ d.layers, img.region.IsInside p = true)
    (hbound : (labelledVoxels d.segmentation).length < 2147483648) :
    extractSample d =
      { iSample := ((labelledVoxels d.segmentation).length : Int),
        sample :=
          { data := (labelledVoxels d.segmentation).map (featureVector d.layers),
            label := (labelledVoxels d.segmentation).map d.segmentation.pixel },
        fault := false } := by
  have h := fillLoop_spec d.segmentation d.layers d.segmentation.region.indices [] (collectionIter d)
    [] (List.replicate (labelledVoxels d.segmentation).length
      (List.replicate (totalChannels d.layers) 0))
    [] (List.replicate (labelledVoxels d.segmentation).length 0)
    (collectionIter_images d) (by simp [collectionIter_pos])
    (fun p hp hl => hin p ((mem_labelledVoxels _ _).mpr ⟨hp, hl⟩)) rfl
    (by simp [labelledVoxels]) (by simp [labelledVoxels])
    (fun row hrow => by rw [List.eq_of_mem_replicate hrow]; simp)
    (by simpa [labelledVoxels] using hbound)
  simp only [extractSample, collectionIter_total, countSamples_eq, SampleType.new]
  simp only [List.nil_append, List.length_nil, Nat.zero_add, Nat.cast_zero] at h
  have hdropD : ∀ (n : Nat) (x : List GreyType), (List.replicate n x).drop n = [] :=
    fun n x => List.drop_eq_nil_of_le (by simp)
  have hdropL : ∀ (n : Nat) (x : LabelType), (List.replicate n x).drop n = [] :=
    fun n x => List.drop_eq_nil_of_le (by simp)
  have hd1 := hdropD (labelledVoxels d.segmentation).length
    (List.replicate (totalChannels d.layers) 0)
  have hd2 := hdropL (labelledVoxels d.segmentation).length 0
  simp only [labelledVoxels] at hd1 hd2 h ⊢
  rw [hd1, hd2] at h
  simpa using h

/-! ## The engine -/

theorem TrainClassifier_of_precondition {Tree : Type} (Learning : Learner Tree) (mem : Memory)
    (e : RFClassificationEngine Tree) (a : Nat)
    (hsrc : e.m_DataSource = some a) (hmain : (mem a).IsMainLoaded = true) :
    (e.TrainClassifier Learning mem).engine.m_Sample = some (extractSample (mem a)).sample ∧
    (e.TrainClassifier Learning mem).engine.m_DataSource = some a ∧
    (e.TrainClassifier Learning mem).status ≠ .assertionFailed := by
  unfold RFClassificationEngine.TrainClassifier
  simp only [hsrc, hmain, if_true]
  split
  · exact ⟨rfl, rfl, by simp⟩
  · refine ⟨rfl, rfl, ?_⟩
    split <;> simp

theorem TrainClassifier_of_extracted {Tree : Type} (Learning : Learner Tree) (mem : Memory)
    (e : RFClassificationEngine Tree) (a : Nat)
    (hsrc : e.m_DataSource = some a) (hmain : (mem a).IsMainLoaded = true)
    (hfault : (extractSample (mem a)).fault = false) :
    e.learningArguments mem =
      some (trainingParameters, (extractSample (mem a)).sample, RandomForestClassifier.New) ∧
    (e.TrainClassifier Learning mem).engine =
      { m_DataSource := some a, m_Sample := some (extractSample (mem a)).sample,
        m_Classifier := (Learning trainingParameters (extractSample (mem a)).sample
          RandomForestClassifier.New).classifier } ∧
    (e.TrainClassifier Learning mem).status =
      (if (Learning trainingParameters (extractSample (mem a)).sample
          RandomForestClassifier.New).threw then .learnerThrew else .completed) := by
  unfold RFClassificationEngine.TrainClassifier RFClassificationEngine.learningArguments
  simp [hsrc, hmain, hfault, RandomForestClassifier.Reset]

theorem TrainClassifier_of_not_precondition {Tree : Type} (Learning : Learner Tree)
    (mem : Memory) (e : RFClassificationEngine Tree) (h : e.precondition mem = false) :
    e.TrainClassifier Learning mem = { engine := e, status := .assertionFailed } ∧
    e.learningArguments mem = none := by
  unfold RFClassificationEngine.precondition at h
  unfold RFClassificationEngine.TrainClassifier RFClassificationEngine.learningArguments
  cases hsrc : e.m_DataSource with
  | none => simp
  | some a =>
    rw [hsrc] at h
    simp only at h
    simp [h]

/-! ## The row counter beyond the range of `int` -/

theorem fillLoop_append (imgSeg : LabelImage) (nComp : Nat) :
    ∀ (ps1 ps2 : List Index3) (cit : CollectionIter) (st : FillState),
      fillLoop imgSeg nComp (ps1 ++ ps2) cit st =
        fillLoop imgSeg nComp ps2 (ps1.foldl (fun c _ => c.next) cit)
          (fillLoop imgSeg nComp ps1 cit st) := by
  intro ps1
  induction ps1 with
  | nil => intro ps2 cit st; simp [fillLoop]
  | cons p rest ih =>
    intro ps2 cit st
    simp only [List.cons_append, fillLoop, List.foldl_cons]
    exact ih ps2 cit.next _

theorem advance_spec :
    ∀ (ps : List Index3) (cit : CollectionIter),
      (ps.foldl (fun c _ => c.next) cit).images = cit.images ∧
      (ps.foldl (fun c _ => c.next) cit).pos = cit.pos.drop ps.length := by
  intro ps
  induction ps with
  | nil => intro cit; simp
  | cons p rest ih =>
    intro cit
    simp only [List.foldl_cons, List.length_cons]
    obtain ⟨h1, h2⟩ := ih cit.next
    refine ⟨by rw [h1]; rfl, ?_⟩
    rw [h2]
    simp [CollectionIter.next, List.drop_tail]

theorem fillVoxel_negative (nComp : Nat) (cit : CollectionIter) (label : LabelType)
    (st : FillState) (hfault : st.fault = false) (hlabel : label ≠ 0) (hneg : st.iSample < 0) :
    fillVoxel nComp cit label st = { st with fault := true } := by
  unfold fillVoxel
  simp [hfault, hlabel, Int.not_le.mpr hneg]

theorem overflowData_indices_length :
    overflowData.segmentation.region.indices.length = 2147483649 := by
  have h1 : List.range 1 = [0] := rfl
  simp [overflowData, ImageRegion.indices, h1]

theorem overflowData_labelled :
    labelledVoxels overflowData.segmentation = overflowData.segmentation.region.indices := by
  unfold labelledVoxels
  apply List.filter_eq_self.mpr
  intro p _
  simp [overflowData]

theorem fillLoop_overflow (imgSeg : LabelImage) (images : List AnatomicImageBase)
    (ps1 : List Index3) (pa pb : Index3) (cit : CollectionIter)
    (himg : cit.images = images) (hpos : cit.pos = ps1 ++ [pa, pb])
    (hall : ∀ p ∈ ps1 ++ [pa, pb], imgSeg.pixel p ≠ 0)
    (hin : ∀ p ∈ ps1 ++ [pa, pb], ∀ img ∈ images, img.region.IsInside p = true)
    (hlen : ps1.length = 2147483647) :
    fillLoop imgSeg (totalChannels images) (ps1 ++ [pa, pb]) cit
        { iSample := 0, sample := SampleType.new 2147483649 (totalChannels images),
          fault := false } =
      { iSample := -2147483648,
        sample :=
          { data := ps1.map (featureVector images) ++
              [featureVector images pa, List.replicate (totalChannels images) 0],
            label := ps1.map imgSeg.pixel ++ [imgSeg.pixel pa, 0] },
        fault := true } := by
  have hfilter : ps1.filter (fun p => decide (imgSeg.pixel p ≠ 0)) = ps1 := by
    apply List.filter_eq_self.mpr
    intro p hp
    simpa using hall p (List.mem_append_left _ hp)
  have hdropD : ∀ x : List GreyType, (List.replicate 2147483649 x).drop ps1.length = [x, x] := by
    intro x
    have hsub : 2147483649 - 2147483647 = 2 := by norm_num
    rw [hlen, List.drop_replicate, hsub]
    rfl
  have hdropL : ∀ x : LabelType, (List.replicate 2147483649 x).drop ps1.length = [x, x] := by
    intro x
    have hsub : 2147483649 - 2147483647 = 2 := by norm_num
    rw [hlen, List.drop_replicate, hsub]
    rfl
  have h1 := fillLoop_spec imgSeg images ps1 [pa, pb] cit
    [] (List.replicate 2147483649 (List.replicate (totalChannels images) 0))
    [] (List.replicate 2147483649 0) himg hpos
    (fun p hp _ => hin p (List.mem_append_left _ hp)) rfl
    (by
      have h := List.length_replicate 2147483649 (List.replicate (totalChannels images) (0 : GreyType))
      rw [hfilter]
      omega)
    (by
      have h := List.length_replicate 2147483649 (0 : LabelType)
      rw [hfilter]
      omega)
    (fun row hrow => by rw [List.eq_of_mem_replicate hrow]; simp)
    (by rw [hfilter, List.length_nil]; omega)
  rw [hfilter] at h1
  simp only [List.nil_append, List.length_nil, Nat.zero_add, Nat.cast_zero, hdropD, hdropL]
    at h1
  have hadv := advance_spec ps1 cit
  rw [hpos, List.drop_left, himg] at hadv
  obtain ⟨hadvI, hadvP⟩ := hadv
  have hval : ∀ i, (ps1.foldl (fun c _ => c.next) cit).Value i =
      (featureVector images pa)[i]? := by
    intro i
    simp only [CollectionIter.Value, hadvP, hadvI]
    exact valueAt_eq pa images i (hin pa (by simp))
  have h2 := fillVoxel_labelled (totalChannels images) (ps1.foldl (fun c _ => c.next) cit)
    (imgSeg.pixel pa) (featureVector images pa) (List.replicate (totalChannels images) 0)
    (ps1.map (featureVector images)) [List.replicate (totalChannels images) 0]
    (ps1.map imgSeg.pixel) [0] 0 (hall pa (by simp)) hval
    (featureVector_length images pa) (by simp) (by simp)
  simp only [List.length_map] at h2
  have hwrap : wrapInt32 ((ps1.length : Int) + 1) = -2147483648 := by
    unfold wrapInt32
    omega
  rw [hwrap] at h2
  rw [fillLoop_append, SampleType.new, h1]
  simp only [fillLoop]
  rw [h2]
  rw [fillVoxel_negative _ _ _ _ rfl (hall pb (by simp)) (by simp)]

theorem TrainClassifier_of_fault {Tree : Type} (Learning : Learner Tree) (mem : Memory)
    (e : RFClassificationEngine Tree) (a : Nat)
    (hsrc : e.m_DataSource = some a) (hmain : (mem a).IsMainLoaded = true)
    (hfault : (extractSample (mem a)).fault = true) :
    (e.TrainClassifier Learning mem).status = .accessFault ∧
    (e.TrainClassifier Learning mem).engine.m_Classifier = e.m_Classifier := by
  unfold RFClassificationEngine.TrainClassifier
  simp [hsrc, hmain, hfault]

theorem extractSample_overflowData :
    ∃ (ps1 : List Index3) (pa : Index3), ps1.length = 2147483647 ∧
      extractSample overflowData =
        { iSample := -2147483648,
          sample :=
            { data := ps1.map (featureVector overflowData.layers) ++
                [featureVector overflowData.layers pa,
                  List.replicate (totalChannels overflowData.layers) 0],
              label := ps1.map overflowData.segmentation.pixel ++
                [overflowData.segmentation.pixel pa, 0] },
          fault := true } := by
  have hlen := overflowData_indices_length
  have hsplit := List.take_append_drop 2147483647 overflowData.segmentation.region.indices
  have hlen1 : (overflowData.segmentation.region.indices.take 2147483647).length =
      2147483647 := by
    rw [List.length_take]
    omega
  have hlen2 : (overflowData.segmentation.region.indices.drop 2147483647).length = 2 := by
    rw [List.length_drop]
    omega
  obtain ⟨pa, pb, hdrop⟩ := List.length_eq_two.mp hlen2
  rw [hdrop] at hsplit
  refine ⟨overflowData.segmentation.region.indices.take 2147483647, pa, hlen1, ?_⟩
  have hall : ∀ p ∈ overflowData.segmentation.region.indices.take 2147483647 ++ [pa, pb],
      overflowData.segmentation.pixel p ≠ 0 := by
    intro p _
    simp [overflowData]
  have hin : ∀ p ∈ overflowData.segmentation.region.indices.take 2147483647 ++ [pa, pb],
      ∀ img ∈ overflowData.layers, img.region.IsInside p = true := by
    intro p hp img himg
    rw [hsplit] at hp
    have hreg : img.region = overflowData.segmentation.region := by
      simp only [overflowData, List.mem_singleton] at himg
      rw [himg]
      rfl
    rw [hreg]
    exact indices_isInside _ p hp
  have hover := fillLoop_overflow overflowData.segmentation overflowData.layers
    (overflowData.segmentation.region.indices.take 2147483647) pa pb
    (collectionIter overflowData) (collectionIter_images overflowData)
    ((collectionIter_pos overflowData).trans hsplit.symm) hall hin hlen1
  rw [← hover]
  simp only [extractSample]
  rw [collectionIter_total, countSamples_eq, overflowData_labelled, hlen, hsplit]

/-! ## Write targets of the fill pass -/

theorem learningArguments_some {Tree : Type} (mem : Memory) (e : RFClassificationEngine Tree)
    (params : TrainingParameters) (s : SampleType) (c : RandomForestClassifier Tree)
    (h : e.learningArguments mem = some (params, s, c)) :
    ∃ a, e.m_DataSource = some a ∧ (mem a).IsMainLoaded = true ∧
      (extractSample (mem a)).fault = false ∧ params = trainingParameters ∧
      s = (extractSample (mem a)).sample ∧ c = RandomForestClassifier.New := by
  unfold RFClassificationEngine.learningArguments at h
  cases hsrc : e.m_DataSource with
  | none => simp [hsrc] at h
  | some a =>
    simp only [hsrc] at h
    by_cases hmain : (mem a).IsMainLoaded = true
    · by_cases hfault : (extractSample (mem a)).fault = true
      · simp [hmain, hfault] at h
      · simp only [hmain, hfault, if_true, Bool.false_eq_true, if_false, Option.some.injEq,
          Prod.mk.injEq] at h
        obtain ⟨hp, hs, hc⟩ := h
        exact ⟨a, rfl, hmain, by simpa using hfault, hp.symm, hs.symm, hc.symm⟩
    · simp [hmain] at h

/-! ## The claims -/

/-- C1: for every label volume and every list of layers, the sample that `TrainClassifier`
extracts (and installs as `m_Sample`) has exactly N rows of data and N labels, where N is the
number of voxels of the label volume whose label is nonzero; with no nonzero voxel the
sample has no row. -/
theorem C1_sample_row_count {Tree : Type} (Learning : Learner Tree) (mem : Memory)
    (e : RFClassificationEngine Tree) (a : Nat)
    (hsrc : e.m_DataSource = some a) (hmain : (mem a).IsMainLoaded = true) :
    ∃ s, (e.TrainClassifier Learning mem).engine.m_Sample = some s ∧
      s = (extractSample (mem a)).sample ∧
      s.data.length = (labelledVoxels (mem a).segmentation).length ∧
      s.label.length = (labelledVoxels (mem a).segmentation).length ∧
      (labelledVoxels (mem a).segmentation = [] → s.data = [] ∧ s.label = []) := by
  obtain ⟨h1, h2, _⟩ := extractSample_hasShape (mem a)
  refine ⟨_, (TrainClassifier_of_precondition Learning mem e a hsrc hmain).1, rfl, h1, h2, ?_⟩
  intro hnone
  rw [hnone] at h1 h2
  exact ⟨List.length_eq_zero.mp h1, List.length_eq_zero.mp h2⟩

theorem C1_sample_row_count_witness :
    (boundEngine.m_DataSource = some 1 ∧ scenarioData.IsMainLoaded = true) ∧
    ∃ s, (boundEngine.TrainClassifier stubLearner (fun _ => scenarioData)).engine.m_Sample =
        some s ∧
      s = (extractSample scenarioData).sample ∧
      s.data.length = (labelledVoxels scenarioData.segmentation).length ∧
      s.label.length = (labelledVoxels scenarioData.segmentation).length ∧
      (labelledVoxels scenarioData.segmentation = [] → s.data = [] ∧ s.label = []) :=
  ⟨⟨rfl, rfl⟩, C1_sample_row_count stubLearner (fun _ => scenarioData) boundEngine 1 rfl rfl⟩

/-- C2 (failing input): a label volume of 2^31 + 1 voxels, all labelled 1, with one scalar
layer over the same region.  The 32-bit row counter `iSample` wraps to a negative value
after 2^31 rows, the write for the last labelled voxel falls outside the sample, and the
call ends in an access fault; row 2^31 of the sample still holds the initial label 0,
whereas the labelled voxel number 2^31 has label 1. -/
theorem C2_row_order_overflow :
    (labelledVoxels overflowData.segmentation).length = 2147483649 ∧
    (∀ img ∈ overflowData.layers, img.region = overflowData.segmentation.region) ∧
    (extractSample overflowData).fault = true ∧
    (extractSample overflowData).iSample = -2147483648 ∧
    (extractSample overflowData).sample.label[2147483648]? = some 0 ∧
    ((labelledVoxels overflowData.segmentation).map
      overflowData.segmentation.pixel)[2147483648]? = some 1 ∧
    (boundEngine.TrainClassifier stubLearner (fun _ => overflowData)).status =
      .accessFault := by
  obtain ⟨ps1, pa, hlen1, hE⟩ := extractSample_overflowData
  have hfault : (extractSample overflowData).fault = true := by rw [hE]
  refine ⟨?_, ?_, hfault, ?_, ?_, ?_, ?_⟩
  · rw [overflowData_labelled, overflowData_indices_length]
  · intro img himg
    simp only [overflowData, List.mem_singleton] at himg
    rw [himg]
    rfl
  · rw [hE]
  · rw [hE]
    have hl : (ps1.map overflowData.segmentation.pixel).length ≤ 2147483648 := by
      rw [List.length_map]
      omega
    simp only
    rw [List.getElem?_append_right hl, List.length_map, hlen1]
    rfl
  · have hlt : 2147483648 < (labelledVoxels overflowData.segmentation).length := by
      rw [overflowData_labelled, overflowData_indices_length]
      omega
    rw [List.getElem?_map, List.getElem?_eq_getElem hlt]
    rfl
  · exact (TrainClassifier_of_fault stubLearner (fun _ => overflowData) boundEngine 1 rfl rfl
      hfault).1

/-- C3: every row of the extracted sample has the same number of columns, namely the
total number of components of the collection iterator, which is the sum of the channel
counts of the layers added to it: 1 for a scalar layer, N for an N-channel vector layer. -/
theorem C3_sample_column_count (d : SNAPImageData) :
    (∀ row ∈ (extractSample d).sample.data,
      row.length = (collectionIter d).GetTotalComponents) ∧
    (collectionIter d).images = d.layers ∧
    (collectionIter d).GetTotalComponents = (d.layers.map AnatomicImageBase.components).sum ∧
    (∀ r f, (AnatomicImageBase.scalar r f).components = 1) ∧
    (∀ r n f, (AnatomicImageBase.vector r n f).components = n) := by
  refine ⟨?_, collectionIter_images d, collectionIter_total d, fun _ _ => rfl,
    fun _ _ _ => rfl⟩
  rw [collectionIter_total]
  exact (extractSample_hasShape d).2.2

/-- C4: binding a data source that differs from the bound one makes it the bound source
and discards the ensemble: the classifier is in its reset state, a query reports no
ensemble, and the engine is in `DataBound`, whatever state it was in before. -/
theorem C4_bind_new_source {Tree : Type} (e : RFClassificationEngine Tree) (imageData : Nat)
    (hne : e.m_DataSource ≠ some imageData) :
    (e.SetDataSource (some imageData)).m_DataSource = some imageData ∧
    (e.SetDataSource (some imageData)).m_Classifier = RandomForestClassifier.New ∧
    (e.SetDataSource (some imageData)).m_Classifier.hasEnsemble = false ∧
    engineState (e.SetDataSource (some imageData)) = .DataBound := by
  simp [RFClassificationEngine.SetDataSource, hne, RandomForestClassifier.Reset,
    RandomForestClassifier.New, RandomForestClassifier.hasEnsemble, engineState]

theorem C4_bind_new_source_witness :
    (trainedEngine.m_DataSource ≠ some 2 ∧ engineState trainedEngine = .Trained) ∧
    (trainedEngine.SetDataSource (some 2)).m_DataSource = some 2 ∧
    (trainedEngine.SetDataSource (some 2)).m_Classifier = RandomForestClassifier.New ∧
    (trainedEngine.SetDataSource (some 2)).m_Classifier.hasEnsemble = false ∧
    engineState (trainedEngine.SetDataSource (some 2)) = .DataBound :=
  ⟨⟨by decide, by decide⟩, C4_bind_new_source trainedEngine 2 (by decide)⟩

/-- C5 (counterexample): a trained engine whose `TrainClassifier` call fails in the learner
does not keep its ensemble: the call ends with the learner throwing, and the classifier is
the reset one, not the ensemble installed before the call. -/
theorem C5_failed_train_counterexample :
    (trainedEngine.TrainClassifier throwingLearner (fun _ => scenarioData)).status =
      .learnerThrew ∧
    (trainedEngine.TrainClassifier throwingLearner (fun _ => scenarioData)).engine.m_Classifier ≠
      trainedEngine.m_Classifier ∧
    (trainedEngine.TrainClassifier throwingLearner (fun _ => scenarioData)).engine.m_Classifier =
      RandomForestClassifier.New := by
  decide

/-- C5 (amended): a `TrainClassifier` call that fails at the precondition assertion leaves
the whole engine state as it was.  A call that fails in the learner keeps the bound data
source, but the classifier has been reset before the learner ran and is left as the
learner left it starting from the reset state, and the sample is the newly extracted
one. -/
theorem C5_failed_train_state {Tree : Type} (Learning : Learner Tree) (mem : Memory)
    (e : RFClassificationEngine Tree) :
    ((e.TrainClassifier Learning mem).status = .assertionFailed →
      (e.TrainClassifier Learning mem).engine = e) ∧
    ((e.TrainClassifier Learning mem).status = .learnerThrew →
      ∃ a, e.m_DataSource = some a ∧
        (e.TrainClassifier Learning mem).engine.m_DataSource = some a ∧
        (e.TrainClassifier Learning mem).engine.m_Sample =
          some (extractSample (mem a)).sample ∧
        (e.TrainClassifier Learning mem).engine.m_Classifier =
          (Learning trainingParameters (extractSample (mem a)).sample
            RandomForestClassifier.New).classifier) := by
  unfold RFClassificationEngine.TrainClassifier
  cases hsrc : e.m_DataSource with
  | none => simp
  | some a =>
    by_cases hmain : (mem a).IsMainLoaded = true
    · by_cases hfault : (extractSample (mem a)).fault = true
      · simp [hmain, hfault]
      · by_cases hthrew : (Learning trainingParameters (extractSample (mem a)).sample
            RandomForestClassifier.New).threw = true
        · simp [hmain, hfault, hthrew, RandomForestClassifier.Reset]
        · simp [hmain, hfault, hthrew, RandomForestClassifier.Reset]
    · simp [hmain]

theorem C5_failed_train_state_witness :
    ((unboundEngine.TrainClassifier throwingLearner (fun _ => scenarioData)).status =
        .assertionFailed ∧
      (unboundEngine.TrainClassifier throwingLearner (fun _ => scenarioData)).engine =
        unboundEngine) ∧
    ((trainedEngine.TrainClassifier throwingLearner (fun _ => scenarioData)).status =
        .learnerThrew ∧
      ∃ a, trainedEngine.m_DataSource = some a ∧
        (trainedEngine.TrainClassifier throwingLearner (fun _ => scenarioData)).engine.m_DataSource =
          some a ∧
        (trainedEngine.TrainClassifier throwingLearner (fun _ => scenarioData)).engine.m_Sample =
          some (extractSample scenarioData).sample ∧
        (trainedEngine.TrainClassifier throwingLearner (fun _ => scenarioData)).engine.m_Classifier =
          (throwingLearner trainingParameters (extractSample scenarioData).sample
            RandomForestClassifier.New).classifier) :=
  ⟨⟨by decide,
      (C5_failed_train_state throwingLearner (fun _ => scenarioData)
        unboundEngine).1 (by decide)⟩,
    ⟨by decide,
      (C5_failed_train_state throwingLearner (fun _ => scenarioData) trainedEngine).2
        (by decide)⟩⟩

/-- C6 (counterexample): called with no data source bound and called with a bound source
whose main image is not loaded, `TrainClassifier` ends in the same way, at the one
precondition assertion; no reading of the way the call ended tells the error
`NoDataSourceBound` of the first case from the error `MainImageNotLoaded` of the second. -/
theorem C6_precondition_errors_counterexample :
    (unboundEngine.TrainClassifier stubLearner (fun _ => unloadedData)).status =
      (boundEngine.TrainClassifier stubLearner (fun _ => unloadedData)).status ∧
    ¬ ∃ report : TrainStatus → SpecError,
      report (unboundEngine.TrainClassifier stubLearner
        (fun _ => unloadedData)).status = .NoDataSourceBound ∧
      report (boundEngine.TrainClassifier stubLearner (fun _ => unloadedData)).status =
        .MainImageNotLoaded := by
  have h : (unboundEngine.TrainClassifier stubLearner
      (fun _ => unloadedData)).status =
      (boundEngine.TrainClassifier stubLearner (fun _ => unloadedData)).status := by decide
  refine ⟨h, ?_⟩
  rintro ⟨report, h1, h2⟩
  rw [h, h2] at h1
  exact absurd h1 (by decide)

/-- C6 (amended): called on an engine with no bound data source, or on an engine whose
bound source has no main image loaded, `TrainClassifier` fails at its precondition
assertion, the same failure in both cases; nothing is extracted, the learner is not
called, and the engine state is unchanged. -/
theorem C6_precondition_failure {Tree : Type} (Learning : Learner Tree) (mem : Memory)
    (e : RFClassificationEngine Tree)
    (h : e.m_DataSource = none ∨ ∃ a, e.m_DataSource = some a ∧ (mem a).IsMainLoaded = false) :
    (e.TrainClassifier Learning mem).status = .assertionFailed ∧
    (e.TrainClassifier Learning mem).engine = e ∧
    e.learningArguments mem = none := by
  have hpre : e.precondition mem = false := by
    unfold RFClassificationEngine.precondition
    rcases h with h | ⟨a, h, hmain⟩
    · simp [h]
    · simp [h, hmain]
  obtain ⟨h1, h2⟩ := TrainClassifier_of_not_precondition Learning mem e hpre
  exact ⟨by rw [h1], by rw [h1], h2⟩

theorem C6_precondition_failure_witness :
    (unboundEngine.m_DataSource = none ∧
      (unboundEngine.TrainClassifier stubLearner (fun _ => scenarioData)).status =
        .assertionFailed ∧
      (unboundEngine.TrainClassifier stubLearner (fun _ => scenarioData)).engine =
        unboundEngine ∧
      unboundEngine.learningArguments (fun _ => scenarioData) =
        none) ∧
    ((trainedEngine.m_DataSource = some 1 ∧ unloadedData.IsMainLoaded = false) ∧
      (trainedEngine.TrainClassifier stubLearner (fun _ => unloadedData)).status =
        .assertionFailed ∧
      (trainedEngine.TrainClassifier stubLearner (fun _ => unloadedData)).engine =
        trainedEngine ∧
      trainedEngine.learningArguments (fun _ => unloadedData) = none) :=
  ⟨⟨rfl, C6_precondition_failure stubLearner (fun _ => scenarioData)
      unboundEngine (Or.inl rfl)⟩,
    ⟨⟨rfl, rfl⟩, C6_precondition_failure stubLearner (fun _ => unloadedData) trainedEngine
      (Or.inr ⟨1, rfl, rfl⟩)⟩⟩

/-- C7 (counterexample): on a label volume without any nonzero voxel `TrainClassifier` does
not reject the run: the call completes, the learner receives the zero-row sample, and the
ensemble the learner built from it is installed. -/
theorem C7_empty_training_set_counterexample :
    labelledVoxels unlabelledData.segmentation = [] ∧
    (boundEngine.TrainClassifier stubLearner (fun _ => unlabelledData)).status = .completed ∧
    boundEngine.learningArguments (fun _ => unlabelledData) =
      some (trainingParameters, { data := [], label := [] }, RandomForestClassifier.New) ∧
    (boundEngine.TrainClassifier stubLearner (fun _ => unlabelledData)).engine.m_Classifier =
      (stubLearner trainingParameters { data := [], label := [] }
        RandomForestClassifier.New).classifier ∧
    (boundEngine.TrainClassifier stubLearner
      (fun _ => unlabelledData)).engine.m_Classifier.hasEnsemble = true := by
  decide

/-- C7 (amended): on a label volume without any nonzero voxel `TrainClassifier` raises no
error of its own: with the precondition met, extraction yields the zero-row sample, the
learner is called with it, the fixed parameters and the reset classifier, and whatever the
learner leaves is installed; the call ends as the learner ends. -/
theorem C7_empty_training_set {Tree : Type} (Learning : Learner Tree) (mem : Memory)
    (e : RFClassificationEngine Tree) (a : Nat)
    (hsrc : e.m_DataSource = some a) (hmain : (mem a).IsMainLoaded = true)
    (hnone : labelledVoxels (mem a).segmentation = []) :
    e.learningArguments mem =
      some (trainingParameters, { data := [], label := [] }, RandomForestClassifier.New) ∧
    (e.TrainClassifier Learning mem).engine.m_Sample = some { data := [], label := [] } ∧
    (e.TrainClassifier Learning mem).engine.m_Classifier =
      (Learning trainingParameters { data := [], label := [] }
        RandomForestClassifier.New).classifier ∧
    (e.TrainClassifier Learning mem).status =
      (if (Learning trainingParameters { data := [], label := [] }
          RandomForestClassifier.New).threw then .learnerThrew else .completed) := by
  have hspec := extractSample_spec (mem a) (by rw [hnone]; simp) (by rw [hnone]; simp)
  rw [hnone] at hspec
  simp only [List.length_nil, List.map_nil] at hspec
  have hfault : (extractSample (mem a)).fault = false := by rw [hspec]
  have hsample : (extractSample (mem a)).sample = { data := [], label := [] } := by rw [hspec]
  obtain ⟨h1, h2, h3⟩ := TrainClassifier_of_extracted Learning mem e a hsrc hmain hfault
  rw [hsample] at h1 h2 h3
  exact ⟨h1, by rw [h2], by rw [h2], h3⟩

theorem C7_empty_training_set_witness :
    (trainedEngine.m_DataSource = some 1 ∧ unlabelledData.IsMainLoaded = true ∧
      labelledVoxels unlabelledData.segmentation = []) ∧
    trainedEngine.learningArguments (fun _ => unlabelledData) =
      some (trainingParameters, { data := [], label := [] }, RandomForestClassifier.New) ∧
    (trainedEngine.TrainClassifier stubLearner (fun _ => unlabelledData)).engine.m_Sample =
      some { data := [], label := [] } ∧
    (trainedEngine.TrainClassifier stubLearner (fun _ => unlabelledData)).engine.m_Classifier =
      (stubLearner trainingParameters { data := [], label := [] }
        RandomForestClassifier.New).classifier ∧
    (trainedEngine.TrainClassifier stubLearner (fun _ => unlabelledData)).status =
      (if (stubLearner trainingParameters { data := [], label := [] }
          RandomForestClassifier.New).threw then .learnerThrew else .completed) :=
  ⟨⟨rfl, rfl, by decide⟩,
    C7_empty_training_set stubLearner (fun _ => unlabelledData) trainedEngine 1 rfl rfl
      (by decide)⟩

/-- C8 (counterexample): the only layer has a buffered region different from that of the
label volume, yet `TrainClassifier` raises no error: the call completes and a sample is
produced and installed. -/
theorem C8_geometry_mismatch_counterexample :
    (∃ img ∈ mismatchedData.layers, img.region ≠ mismatchedData.segmentation.region) ∧
    (boundEngine.TrainClassifier stubLearner (fun _ => mismatchedData)).status = .completed ∧
    (boundEngine.TrainClassifier stubLearner (fun _ => mismatchedData)).engine.m_Sample =
      some { data := [[5]], label := [1] } ∧
    (extractSample mismatchedData).fault = false := by
  decide

/-- C8 (amended): `TrainClassifier` compares no layer region with the region of the label
volume and has no geometry error.  Whenever the buffered region of every layer contains
the labelled voxels (the regions need not be equal) and fewer than 2^31 voxels are
labelled, extraction ends without fault and yields the sample whose row k holds the label
of the k-th labelled voxel and the values the layers hold at the index of that voxel,
which is installed and handed to the learner. -/
theorem C8_geometry_unchecked {Tree : Type} (Learning : Learner Tree) (mem : Memory)
    (e : RFClassificationEngine Tree) (a : Nat)
    (hsrc : e.m_DataSource = some a) (hmain : (mem a).IsMainLoaded = true)
    (hcover : ∀ p ∈ labelledVoxels (mem a).segmentation, ∀ img ∈ (mem a).layers,
      img.region.IsInside p = true)
    (hbound : (labelledVoxels (mem a).segmentation).length < 2147483648) :
    (extractSample (mem a)).fault = false ∧
    (extractSample (mem a)).sample =
      { data := (labelledVoxels (mem a).segmentation).map (featureVector (mem a).layers),
        label := (labelledVoxels (mem a).segmentation).map (mem a).segmentation.pixel } ∧
    (e.TrainClassifier Learning mem).engine.m_Sample = some (extractSample (mem a)).sample ∧
    e.learningArguments mem =
      some (trainingParameters, (extractSample (mem a)).sample, RandomForestClassifier.New) ∧
    (e.TrainClassifier Learning mem).status =
      (if (Learning trainingParameters (extractSample (mem a)).sample
          RandomForestClassifier.New).threw then .learnerThrew else .completed) := by
  have hspec := extractSample_spec (mem a) hcover hbound
  have hfault : (extractSample (mem a)).fault = false := by rw [hspec]
  obtain ⟨h1, h2, h3⟩ := TrainClassifier_of_extracted Learning mem e a hsrc hmain hfault
  refine ⟨hfault, by rw [hspec], by rw [h2], h1, h3⟩

theorem C8_geometry_unchecked_witness :
    (boundEngine.m_DataSource = some 1 ∧ mismatchedData.IsMainLoaded = true ∧
      (∀ p ∈ labelledVoxels mismatchedData.segmentation, ∀ img ∈ mismatchedData.layers,
        img.region.IsInside p = true) ∧
      (labelledVoxels mismatchedData.segmentation).length < 2147483648 ∧
      (∃ img ∈ mismatchedData.layers, img.region ≠ mismatchedData.segmentation.region)) ∧
    (extractSample mismatchedData).fault = false ∧
    (extractSample mismatchedData).sample =
      { data := (labelledVoxels mismatchedData.segmentation).map
          (featureVector mismatchedData.layers),
        label := (labelledVoxels mismatchedData.segmentation).map
          mismatchedData.segmentation.pixel } ∧
    (boundEngine.TrainClassifier stubLearner (fun _ => mismatchedData)).engine.m_Sample =
      some (extractSample mismatchedData).sample ∧
    boundEngine.learningArguments (fun _ => mismatchedData) =
      some (trainingParameters, (extractSample mismatchedData).sample,
        RandomForestClassifier.New) ∧
    (boundEngine.TrainClassifier stubLearner (fun _ => mismatchedData)).status =
      (if (stubLearner trainingParameters (extractSample mismatchedData).sample
          RandomForestClassifier.New).threw then .learnerThrew else .completed) :=
  ⟨⟨rfl, rfl, by decide, by decide, by decide⟩,
    C8_geometry_unchecked stubLearner (fun _ => mismatchedData) boundEngine 1 rfl rfl
      (by decide) (by decide)⟩

/-- C9: every `TrainClassifier` call is a full retrain.  Two engines bound to the same data
source, whatever their previous samples and ensembles, hand the learner the same
arguments: the fixed parameters, the sample extracted anew from the data source, and the
reset classifier, which holds no ensemble.  Whenever the learner is reached the two calls
end in the same engine state and status. -/
theorem C9_full_retrain {Tree : Type} (Learning : Learner Tree) (mem : Memory)
    (e1 e2 : RFClassificationEngine Tree) (hsame : e1.m_DataSource = e2.m_DataSource) :
    e1.learningArguments mem = e2.learningArguments mem ∧
    (∀ params s c, e1.learningArguments mem = some (params, s, c) →
      c = RandomForestClassifier.New ∧ c.hasEnsemble = false ∧
      ∃ a, e1.m_DataSource = some a ∧ s = (extractSample (mem a)).sample) ∧
    ((e1.learningArguments mem).isSome = true →
      e1.TrainClassifier Learning mem = e2.TrainClassifier Learning mem) := by
  refine ⟨?_, ?_, ?_⟩
  · unfold RFClassificationEngine.learningArguments
    rw [hsame]
    simp [RandomForestClassifier.Reset]
  · intro params s c h
    unfold RFClassificationEngine.learningArguments at h
    cases hsrc : e1.m_DataSource with
    | none => simp [hsrc] at h
    | some a =>
      simp only [hsrc] at h
      split at h
      · split at h
        · simp at h
        · simp only [Option.some.injEq, Prod.mk.injEq] at h
          obtain ⟨_, hs, hc⟩ := h
          refine ⟨hc.symm, ?_, a, rfl, hs.symm⟩
          rw [← hc]
          rfl
      · simp at h
  · intro hpre
    unfold RFClassificationEngine.learningArguments at hpre
    unfold RFClassificationEngine.TrainClassifier
    rw [← hsame]
    cases hsrc : e1.m_DataSource with
    | none => simp [hsrc] at hpre
    | some a =>
      simp only [hsrc] at hpre
      by_cases hmain : (mem a).IsMainLoaded = true
      · by_cases hfault : (extractSample (mem a)).fault = true
        · simp [hmain, hfault] at hpre
        · simp [hmain, hfault, RandomForestClassifier.Reset]
      · simp [hmain] at hpre

theorem C9_full_retrain_witness :
    (boundEngine.m_DataSource = trainedEngine.m_DataSource ∧
      boundEngine.m_Sample ≠ trainedEngine.m_Sample ∧
      boundEngine.m_Classifier ≠ trainedEngine.m_Classifier) ∧
    boundEngine.learningArguments (fun _ => scenarioData) =
      trainedEngine.learningArguments (fun _ => scenarioData) ∧
    (∀ params s c, boundEngine.learningArguments (fun _ => scenarioData) = some (params, s, c) →
      c = RandomForestClassifier.New ∧ c.hasEnsemble = false ∧
      ∃ a, boundEngine.m_DataSource = some a ∧ s = (extractSample scenarioData).sample) ∧
    ((boundEngine.learningArguments (fun _ => scenarioData)).isSome = true →
      boundEngine.TrainClassifier stubLearner (fun _ => scenarioData) =
        trainedEngine.TrainClassifier stubLearner (fun _ => scenarioData)) :=
  ⟨⟨rfl, by decide, by decide⟩,
    C9_full_retrain stubLearner (fun _ => scenarioData) boundEngine trainedEngine rfl⟩

/-- C10: with a data source bound, `ResetClassifier` discards the ensemble and leaves the
engine in `DataBound`: the classifier is in its reset, empty state and the bound data source
is the one bound before the call. -/
theorem C10_reset_classifier {Tree : Type} (e : RFClassificationEngine Tree) (a : Nat)
    (hsrc : e.m_DataSource = some a) :
    e.ResetClassifier.m_Classifier = RandomForestClassifier.New ∧
    e.ResetClassifier.m_Classifier.hasEnsemble = false ∧
    e.ResetClassifier.m_DataSource = some a ∧
    engineState e.ResetClassifier = .DataBound := by
  simp [RFClassificationEngine.ResetClassifier, hsrc, RandomForestClassifier.Reset,
    RandomForestClassifier.New, RandomForestClassifier.hasEnsemble, engineState]

theorem C10_reset_classifier_witness :
    (trainedEngine.m_DataSource = some 1 ∧ engineState trainedEngine = .Trained) ∧
    trainedEngine.ResetClassifier.m_Classifier = RandomForestClassifier.New ∧
    trainedEngine.ResetClassifier.m_Classifier.hasEnsemble = false ∧
    trainedEngine.ResetClassifier.m_DataSource = some 1 ∧
    engineState trainedEngine.ResetClassifier = .DataBound :=
  ⟨⟨rfl, by decide⟩, C10_reset_classifier trainedEngine 1 rfl⟩

/-- C11: `ResetClassifier` is idempotent: applied twice it leaves the engine in the state
one application leaves it in, with the same bound data source, the same sample and the
same empty classifier. -/
theorem C11_reset_idempotent {Tree : Type} (e : RFClassificationEngine Tree) :
    e.ResetClassifier.ResetClassifier = e.ResetClassifier ∧
    e.ResetClassifier.ResetClassifier.m_DataSource = e.m_DataSource ∧
    e.ResetClassifier.ResetClassifier.m_Sample = e.m_Sample ∧
    e.ResetClassifier.ResetClassifier.m_Classifier = RandomForestClassifier.New ∧
    e.ResetClassifier.m_Classifier = RandomForestClassifier.New := by
  simp [RFClassificationEngine.ResetClassifier, RandomForestClassifier.Reset]

/-- C12: whenever `TrainClassifier` reaches the learner, the parameters it hands over are
the fixed set assigned in the source, whatever the label volume, the layers and the
previous engine state: treeDepth, treeNum, candidateNodeClassifierNum and
candidateClassifierThresholdNum are 10, subSamplePercent is 0, splitIG is the literal 0.1,
leafEntropy the literal 0.05 and verbose is true; the installed classifier is what the
learner leaves when called with them. -/
theorem C12_fixed_parameters {Tree : Type} (Learning : Learner Tree) (mem : Memory)
    (e : RFClassificationEngine Tree) (params : TrainingParameters) (s : SampleType)
    (c : RandomForestClassifier Tree) (h : e.learningArguments mem = some (params, s, c)) :
    params = trainingParameters ∧
    params.treeDepth = 10 ∧ params.treeNum = 10 ∧
    params.candidateNodeClassifierNum = 10 ∧ params.candidateClassifierThresholdNum = 10 ∧
    params.subSamplePercent = 0 ∧
    params.splitIG = { mantissa := 1, decimals := 1 } ∧ params.splitIG.value = 1 / 10 ∧
    params.leafEntropy = { mantissa := 5, decimals := 2 } ∧
    params.leafEntropy.value = 5 / 100 ∧
    params.verbose = true ∧
    (e.TrainClassifier Learning mem).engine.m_Classifier = (Learning params s c).classifier := by
  obtain ⟨a, hsrc, hmain, hfault, hp, hs, hc⟩ := learningArguments_some mem e params s c h
  obtain ⟨_, h2, _⟩ := TrainClassifier_of_extracted Learning mem e a hsrc hmain hfault
  subst hp hs hc
  refine ⟨rfl, rfl, rfl, rfl, rfl, rfl, rfl, ?_, rfl, ?_, rfl, by rw [h2]⟩
  · norm_num [trainingParameters, DecimalLiteral.value]
  · norm_num [trainingParameters, DecimalLiteral.value]

theorem C12_fixed_parameters_witness :
    trainedEngine.learningArguments (fun _ => scenarioData) =
      some (trainingParameters, (extractSample scenarioData).sample,
        RandomForestClassifier.New) ∧
    trainingParameters = trainingParameters ∧
    trainingParameters.treeDepth = 10 ∧ trainingParameters.treeNum = 10 ∧
    trainingParameters.candidateNodeClassifierNum = 10 ∧
    trainingParameters.candidateClassifierThresholdNum = 10 ∧
    trainingParameters.subSamplePercent = 0 ∧
    trainingParameters.splitIG = { mantissa := 1, decimals := 1 } ∧
    trainingParameters.splitIG.value = 1 / 10 ∧
    trainingParameters.leafEntropy = { mantissa := 5, decimals := 2 } ∧
    trainingParameters.leafEntropy.value = 5 / 100 ∧
    trainingParameters.verbose = true ∧
    (trainedEngine.TrainClassifier stubLearner (fun _ => scenarioData)).engine.m_Classifier =
      (stubLearner trainingParameters (extractSample scenarioData).sample
        RandomForestClassifier.New).classifier :=
  (fun h =>
    ⟨h, C12_fixed_parameters stubLearner (fun _ => scenarioData) trainedEngine
      trainingParameters (extractSample scenarioData).sample RandomForestClassifier.New h⟩)
    (TrainClassifier_of_extracted stubLearner (fun _ => scenarioData) trainedEngine 1 rfl rfl
      (by decide)).1

/-- C13: binding the data source that is already bound is a no-op: `SetDataSource` called
with the stored pointer leaves the whole engine state unchanged, so the classifier is not
reset and a trained engine stays trained. -/
theorem C13_bind_same_source {Tree : Type} (e : RFClassificationEngine Tree)
    (imageData : Option Nat) (hsame : e.m_DataSource = imageData) :
    e.SetDataSource imageData = e ∧
    (e.SetDataSource imageData).m_Classifier = e.m_Classifier ∧
    (e.SetDataSource imageData).m_Sample = e.m_Sample ∧
    engineState (e.SetDataSource imageData) = engineState e := by
  have h : e.SetDataSource imageData = e := by
    simp [RFClassificationEngine.SetDataSource, hsame]
  rw [h]
  exact ⟨rfl, rfl, rfl, rfl⟩

theorem C13_bind_same_source_witness :
    (trainedEngine.m_DataSource = some 1 ∧ engineState trainedEngine = .Trained) ∧
    trainedEngine.SetDataSource (some 1) = trainedEngine ∧
    (trainedEngine.SetDataSource (some 1)).m_Classifier = trainedEngine.m_Classifier ∧
    (trainedEngine.SetDataSource (some 1)).m_Sample = trainedEngine.m_Sample ∧
    engineState (trainedEngine.SetDataSource (some 1)) = engineState trainedEngine :=
  ⟨⟨rfl, by decide⟩, C13_bind_same_source trainedEngine (some 1) rfl⟩

